import Mathlib

/-!
Disk-on-RAM block driver: `ram_block.c`

A shallow embedding of the driver's entry points (`rb_open`, `rb_getgeo`,
`rb_transfer`, `rb_request`, `rb_init`) and the properties of them that the
specification states.

Conventions of the embedding.

* Kernel objects are records of the fields the driver reads or writes.
* `int` results are `Int` (`0` or a negated errno value); unsigned quantities
  (`unsigned`, `unsigned int`, `sector_t`) are `Nat`.  `sector_t` is the 64-bit
  type (the driver prints it with `%lld`): the sum `start_sector +
  sector_offset` handed to the store is reduced modulo `2 ^ 64`.  The running
  `sector_offset` itself is kept unreduced: each segment adds less than
  `2 ^ 32` sectors (`unsigned int`), so it stays below `2 ^ 64` for any request
  of fewer than `2 ^ 32` segments, and the reduced start sector of a store call
  is the same whether or not the offset was reduced first (`sector_t_add`).
  The conversions between `int` and `unsigned int` in `rb_init` are written out
  with `% 2 ^ 32`.
* `ram_device.h` / `ram_device.c` are not part of the sources at hand.  The
  constant `RB_SECTOR_SIZE` is a parameter of every definition that uses it,
  and the functions `ramdevice_write` / `ramdevice_read` are the fields of a
  parameter `ramdevice σ` (the driver discards whatever they return, so they
  are state transformers on the store and on the buffer they are handed).
* A buffer (`page_address(bv_page) + bv_offset`) is the list of bytes found at
  that address; buffers of different segments do not overlap.
* `printk` has no effect on the modelled state and is left out.
-/

namespace RamBlock

/-! ## Constants -/

/-- Line 15: `#define RB_FIRST_MINOR 0`. -/
def RB_FIRST_MINOR : Nat := 0

/-- Line 16: `#define RB_MINOR_CNT 16`. -/
def RB_MINOR_CNT : Nat := 16

/-- Errno value of `<linux/errno.h>`: no such device. -/
def ENODEV : Int := 19

/-- Errno value of `<linux/errno.h>`: I/O error. -/
def EIO : Int := 5

/-- Errno value of `<linux/errno.h>`: device or resource busy. -/
def EBUSY : Int := 16

/-- Errno value of `<linux/errno.h>`: out of memory. -/
def ENOMEM : Int := 12

/-- Data direction of a request, `<linux/fs.h>`: `READ` is 0. -/
def READ : Nat := 0

/-- Data direction of a request, `<linux/fs.h>`: `WRITE` is 1. -/
def WRITE : Nat := 1

/-- One byte (`u8`). Bytes are only copied, never computed with. -/
abbrev u8 := Fin 256

/-- The value of an arithmetic result in `sector_t` (an unsigned 64-bit type):
its residue modulo `2 ^ 64`. -/
def sector_t (v : Nat) : Nat := v % 2 ^ 64

/-! ## Device descriptor: `rb_open`, `rb_close`, `rb_getgeo` -/

/-- The fields of `struct gendisk` that `rb_init` fills in. -/
structure gendisk where
  minors : Nat
  major : Int
  first_minor : Nat
  disk_name : List Char
  capacity : Nat
  deriving DecidableEq, Repr

/-- The driver's `struct rb_device` (lines 20-26): the size in sectors, whether
a request queue is attached, and the disk, if allocated.  The spinlock carries
no data. -/
structure rb_device where
  size : Nat
  rb_queue : Bool
  rb_disk : Option gendisk
  deriving DecidableEq, Repr

/-- `struct hd_geometry` of `<linux/hdreg.h>`. -/
structure hd_geometry where
  heads : Nat
  sectors : Nat
  cylinders : Nat
  start : Nat
  deriving DecidableEq, Repr

/-- Lines 28-38. `unit` is `iminor(bdev->bd_inode)`; nothing else of the block
device or of the driver's state is read. -/
def rb_open (unit : Nat) : Int :=
  if unit > RB_MINOR_CNT then
    - ENODEV
  else
    0

/-- Lines 41-45 (the variant that returns a status). -/
def rb_close : Int := 0

/-- Lines 53-60. The function has the driver's global `rb_dev` in scope (first
argument) and the caller's `geo` (second argument); it returns the status and
the geometry record after the four assignments. -/
def rb_getgeo (_dev : rb_device) (geo : hd_geometry) : Int × hd_geometry :=
  let geo := { geo with heads := 1 }
  let geo := { geo with cylinders := 64 }
  let geo := { geo with sectors := 32 }
  let geo := { geo with start := 0 }
  (0, geo)

/-! ## Requests -/

/-- One segment of a request as `rq_for_each_segment` yields it: the buffer
`page_address(BV_PAGE(bv)) + BV_OFFSET(bv)` and the length `BV_LEN(bv)` in
bytes. -/
structure bio_vec where
  buffer : List u8
  bv_len : Nat
  deriving DecidableEq, Repr

/-- The parts of `struct request` that `rb_transfer` reads: `rq_data_dir(req)`,
`blk_rq_pos(req)`, `blk_rq_sectors(req)` and the segments in iteration
order. -/
structure request where
  rq_data_dir : Nat
  blk_rq_pos : Nat
  blk_rq_sectors : Nat
  segments : List bio_vec
  deriving DecidableEq, Repr

/-- The backing store the driver is linked against (`ram_device.c`), over a
store state `σ`.  Both functions take `(sector_off, buffer, sectors)` as in the
calls of lines 105 and 109 and yield the store and the buffer afterwards. -/
structure ramdevice (σ : Type) where
  ramdevice_write : σ → Nat → List u8 → Nat → σ × List u8
  ramdevice_read : σ → Nat → List u8 → Nat → σ × List u8

/-- A record of one call of `ramdevice_write` (`write = true`) or
`ramdevice_read` with its three arguments (the buffer as it is handed over). -/
structure store_call where
  write : Bool
  sector_off : Nat
  buffer : List u8
  sectors : Nat
  deriving DecidableEq, Repr

/-- The state of `rb_transfer`: its locals `ret` and `sector_offset`, the
store, the segments visited so far (with their buffers as the store calls left
them) and the store calls made so far. -/
structure xfer (σ : Type) where
  ret : Int
  sector_offset : Nat
  dev : σ
  segs : List bio_vec
  calls : List store_call

/-- Lines 91-112: the body of the `rq_for_each_segment` loop for segment
`bv`.  The start sector of the store call is the `sector_t` sum
`start_sector + sector_offset` of lines 105 and 109, reduced modulo `2 ^ 64`;
the running `sector_offset` of line 111 is carried unreduced, which leaves that
start sector the same and differs from the source only for a request of
`2 ^ 64` sectors or more. -/
def rb_segment {σ : Type} (ops : ramdevice σ) (RB_SECTOR_SIZE : Nat)
    (dir start_sector : Nat) (st : xfer σ) (bv : bio_vec) : xfer σ :=
  let buffer := bv.buffer
  let ret := if bv.bv_len % RB_SECTOR_SIZE ≠ 0 then - EIO else st.ret
  let sectors := bv.bv_len / RB_SECTOR_SIZE
  let sector_off := sector_t (start_sector + st.sector_offset)
  let r :=
    if dir = WRITE then
      ops.ramdevice_write st.dev sector_off buffer sectors
    else
      ops.ramdevice_read st.dev sector_off buffer sectors
  { ret := ret
    sector_offset := st.sector_offset + sectors
    dev := r.1
    segs := st.segs ++ [{ bv with buffer := r.2 }]
    calls := st.calls ++
      [{ write := decide (dir = WRITE), sector_off := sector_off,
         buffer := buffer, sectors := sectors }] }

/-- Lines 85-112: `ret = 0`, `sector_offset = 0`, then the loop over the
segments. -/
def rb_segments {σ : Type} (ops : ramdevice σ) (RB_SECTOR_SIZE : Nat) (dev : σ)
    (req : request) : xfer σ :=
  req.segments.foldl (rb_segment ops RB_SECTOR_SIZE req.rq_data_dir req.blk_rq_pos)
    { ret := 0, sector_offset := 0, dev := dev, segs := [], calls := [] }

/-- Lines 62-120: the loop, then the comparison of `sector_offset` with
`sector_cnt`.  The field `ret` of the result is the value returned. -/
def rb_transfer {σ : Type} (ops : ramdevice σ) (RB_SECTOR_SIZE : Nat) (dev : σ)
    (req : request) : xfer σ :=
  let sector_cnt := req.blk_rq_sectors
  let st := rb_segments ops RB_SECTOR_SIZE dev req
  let ret := if st.sector_offset ≠ sector_cnt then - EIO else st.ret
  { st with ret := ret }

/-! ## The request function -/

/-- What `__blk_end_request_all(req, ret)` is told: the request and its status,
together with the request's segments as the transfer left them. -/
structure completion where
  req : request
  error : Int
  segs : List bio_vec
  deriving DecidableEq, Repr

/-- The state of one run of `rb_request`: the store, the queue (head first) and
the completions reported so far, oldest first. -/
structure drain (σ : Type) where
  dev : σ
  queue : List request
  done : List completion

/-- The kernel's `blk_fetch_request(q)`: the request at the head of the queue
together with the queue without it, or `NULL` when the queue is empty. -/
def blk_fetch_request : List request → Option (request × List request)
  | [] => none
  | req :: q => some (req, q)

/-- Lines 121-140: while `blk_fetch_request(q)` yields a request, transfer it
and report its status with `__blk_end_request_all`. -/
def rb_request {σ : Type} (ops : ramdevice σ) (RB_SECTOR_SIZE : Nat) (dev : σ)
    (q : List request) (done : List completion) : drain σ :=
  match h : blk_fetch_request q with
  | none => { dev := dev, queue := q, done := done }
  | some (req, q1) =>
    let r := rb_transfer ops RB_SECTOR_SIZE dev req
    rb_request ops RB_SECTOR_SIZE r.dev q1
      (done ++ [{ req := req, error := r.ret, segs := r.segs }])
termination_by q.length
decreasing_by
  cases q with
  | nil => simp [blk_fetch_request] at h
  | cons a l =>
    simp only [blk_fetch_request, Option.some.injEq, Prod.mk.injEq] at h
    rw [← h.2]
    exact Nat.lt_succ_self _

/-! ## Module initialisation -/

/-- The calls `rb_init` makes into the kernel and into `ram_device.c`, with the
arguments that matter. -/
inductive kcall where
  | ramdevice_init
  | register_blkdev (major : Nat)
  | ramdevice_cleanup
  | spin_lock_init
  | blk_init_queue
  | unregister_blkdev (major : Nat)
  | alloc_disk (minors : Nat)
  | blk_cleanup_queue
  | set_capacity (size : Nat)
  | add_disk (disk : gendisk)
  deriving DecidableEq, Repr

/-- What the callees of `rb_init` answer: the `int` results of `ramdevice_init`
and `register_blkdev`, and whether `blk_init_queue` and `alloc_disk` return a
non-NULL pointer. -/
structure kernel where
  ramdevice_init : Int
  register_blkdev : Int
  blk_init_queue : Bool
  alloc_disk : Bool

/-- The driver's globals: `rb_major` (line 18) and `rb_dev` (line 26). -/
structure module_state where
  rb_major : Nat
  rb_dev : rb_device
  deriving DecidableEq, Repr

/-- The globals as the module is loaded: statics are zero. -/
def module_state.load : module_state :=
  { rb_major := 0, rb_dev := { size := 0, rb_queue := false, rb_disk := none } }

/-- The outcome of `rb_init`: the value returned, the globals afterwards and the
calls made, in order. -/
structure init_result where
  ret : Int
  st : module_state
  calls : List kcall
  deriving DecidableEq, Repr

/-- Conversion `int → unsigned int` of a 32-bit value. -/
def to_u32 (v : Int) : Nat := (v % 2 ^ 32).toNat

/-- Conversion `unsigned int → int` of a 32-bit value. -/
def to_int (v : Nat) : Int := if v < 2 ^ 31 then (v : Int) else (v : Int) - 2 ^ 32

/-- Lines 149-195. -/
def rb_init (k : kernel) (st : module_state) : init_result :=
  let ret := k.ramdevice_init
  if ret < 0 then
    { ret := ret, st := st, calls := [kcall.ramdevice_init] }
  else
    let dev := { st.rb_dev with size := to_u32 ret }
    let rb_major := to_u32 k.register_blkdev
    let calls := [kcall.ramdevice_init, kcall.register_blkdev st.rb_major]
    if rb_major ≤ 0 then
      { ret := - EBUSY, st := { rb_major := rb_major, rb_dev := dev },
        calls := calls ++ [kcall.ramdevice_cleanup] }
    else
      let dev := { dev with rb_queue := k.blk_init_queue }
      let calls := calls ++ [kcall.spin_lock_init, kcall.blk_init_queue]
      if dev.rb_queue = false then
        { ret := - ENOMEM, st := { rb_major := rb_major, rb_dev := dev },
          calls := calls ++ [kcall.unregister_blkdev rb_major, kcall.ramdevice_cleanup] }
      else
        let calls := calls ++ [kcall.alloc_disk RB_MINOR_CNT]
        if k.alloc_disk = false then
          { ret := - ENOMEM,
            st := { rb_major := rb_major, rb_dev := { dev with rb_disk := none } },
            calls := calls ++ [kcall.blk_cleanup_queue, kcall.unregister_blkdev rb_major,
              kcall.ramdevice_cleanup] }
        else
          let disk : gendisk :=
            { minors := RB_MINOR_CNT, major := to_int rb_major, first_minor := RB_FIRST_MINOR,
              disk_name := ['r', 'b'], capacity := dev.size }
          { ret := 0,
            st := { rb_major := rb_major, rb_dev := { dev with rb_disk := some disk } },
            calls := calls ++ [kcall.set_capacity dev.size, kcall.add_disk disk] }

/-! ## The backing store of the specification -/

/-- Modelled from the spec: the Backing Store (`ram_device.c`, absent from the
sources): "a fixed-capacity array of sectors", here the capacity in sectors and
the byte found at each byte offset.  Sectors are numbered by 64-bit values
(`start_sector: u64` in the specification's interface, `sector_t` in the
driver), and so is their count. -/
structure ram_store where
  capacity_sectors : Nat
  mem : Nat → u8
  capacity_range : capacity_sectors < 2 ^ 64 := by decide

/-- Modelled from the spec: the one error of the Backing Store's transfers
(`ram_device.c` is absent from the sources). -/
inductive store_error where
  | OutOfRange
  deriving DecidableEq, Repr

/-- Modelled from the spec: `write(sector, count, src_buffer)` of the Backing
Store (`ram_device.c` is absent): copies `count * sector_size` bytes of the
buffer to the store starting at `sector`; "fails with `OutOfRange` if the range
exceeds capacity", rejecting the access wholesale. -/
def backing_write (sector_size : Nat) (st : ram_store) (sector count : Nat)
    (src_buffer : List u8) : Except store_error ram_store :=
  if sector + count ≤ st.capacity_sectors then
    let mem : Nat → u8 := fun i =>
      if sector * sector_size ≤ i ∧ i < sector * sector_size + count * sector_size then
        src_buffer.getD (i - sector * sector_size) 0
      else
        st.mem i
    Except.ok { st with mem := mem }
  else
    Except.error store_error.OutOfRange

/-- Modelled from the spec: `read(sector, count, dest_buffer)` of the Backing
Store (`ram_device.c` is absent): copies `count * sector_size` bytes starting at
`sector` into the front of the buffer, whose remainder is left as it is; "fails
with `OutOfRange` if the range exceeds capacity". -/
def backing_read (sector_size : Nat) (st : ram_store) (sector count : Nat)
    (dest_buffer : List u8) : Except store_error (List u8) :=
  if sector + count ≤ st.capacity_sectors then
    Except.ok ((List.range (count * sector_size)).map (fun i => st.mem (sector * sector_size + i))
      ++ dest_buffer.drop (count * sector_size))
  else
    Except.error store_error.OutOfRange

/-- Modelled from the spec: the functions `ramdevice_write` and `ramdevice_read`
of `ram_device.c` (absent) as the driver calls them, on top of the Backing
Store's `write` and `read`.  An access that fails leaves the store and the
buffer unmodified; the driver does not look at the outcome. -/
def spec_ramdevice (sector_size : Nat) : ramdevice ram_store where
  ramdevice_write st sector_off buffer sectors :=
    match backing_write sector_size st sector_off sectors buffer with
    | Except.ok st1 => (st1, buffer)
    | Except.error _ => (st, buffer)
  ramdevice_read st sector_off buffer sectors :=
    match backing_read sector_size st sector_off sectors buffer with
    | Except.ok buf => (st, buf)
    | Except.error _ => (st, buffer)

/-! ## Vocabulary of the specification -/

/-- The number of whole sectors of a segment: `byte_length / sector_size`,
rounded down. -/
def whole_sectors (sector_size : Nat) (bv : bio_vec) : Nat := bv.bv_len / sector_size

/-- The sum of the whole-sector counts of a list of segments. -/
def total_sectors (sector_size : Nat) (segs : List bio_vec) : Nat :=
  (segs.map (whole_sectors sector_size)).sum

/-- Every segment length is a multiple of the sector size. -/
def all_aligned (sector_size : Nat) (segs : List bio_vec) : Prop :=
  ∀ bv ∈ segs, bv.bv_len % sector_size = 0

/-- Some segment's sector span, placed at the request's start sector plus the
whole sectors of the segments before it, ends beyond `capacity` sectors. -/
def exceeds_capacity (sector_size capacity : Nat) (req : request) : Prop :=
  ∃ k bv, req.segments[k]? = some bv ∧
    capacity < req.blk_rq_pos + total_sectors sector_size (req.segments.take k)
      + whole_sectors sector_size bv

/-- The bytes of a list of segments, in order. -/
def segment_bytes (segs : List bio_vec) : List u8 := (segs.map (fun bv => bv.buffer)).flatten

/-- Alignment of every segment is decidable. -/
instance all_aligned_decidable (sector_size : Nat) (segs : List bio_vec) :
    Decidable (all_aligned sector_size segs) :=
  inferInstanceAs (Decidable (∀ bv ∈ segs, bv.bv_len % sector_size = 0))

/-- The outcome the specification assigns to a request: success when every
segment is aligned and the whole sectors add up to the declared count, an I/O
error otherwise. -/
def request_status (sector_size : Nat) (req : request) : Int :=
  if all_aligned sector_size req.segments ∧
      total_sectors sector_size req.segments = req.blk_rq_sectors then
    0
  else
    - EIO

/-! ## Arithmetic in `sector_t` -/

/-- A value below `2 ^ 64` is its own residue. -/
theorem sector_t_of_lt (v : Nat) (h : v < 2 ^ 64) : sector_t v = v :=
  Nat.mod_eq_of_lt h

/-- Reducing the running offset before the addition does not change the reduced
sum: the start sector of a store call is the same for a reduced and for an
unreduced running offset. -/
theorem sector_t_add (a b : Nat) : sector_t (a + sector_t b) = sector_t (a + b) := by
  unfold sector_t
  omega

/-! ## The segment loop -/

section loop

variable {σ : Type} (ops : ramdevice σ) (ss dir start : Nat)

theorem all_aligned_nil : all_aligned ss [] := by
  simp [all_aligned]

theorem all_aligned_cons (bv : bio_vec) (segs : List bio_vec) :
    all_aligned ss (bv :: segs) ↔ bv.bv_len % ss = 0 ∧ all_aligned ss segs := by
  simp [all_aligned]

theorem total_sectors_nil : total_sectors ss [] = 0 := by
  simp [total_sectors]

theorem total_sectors_cons (bv : bio_vec) (segs : List bio_vec) :
    total_sectors ss (bv :: segs) = bv.bv_len / ss + total_sectors ss segs := by
  simp [total_sectors, whole_sectors]

/-- The running offset after the loop is the offset before it plus the whole
sectors of the segments. -/
theorem loop_sector_offset (segs : List bio_vec) (st : xfer σ) :
    (segs.foldl (rb_segment ops ss dir start) st).sector_offset
      = st.sector_offset + total_sectors ss segs := by
  induction segs generalizing st with
  | nil => simp [total_sectors_nil]
  | cons bv segs ih =>
    rw [List.foldl_cons, ih, total_sectors_cons]
    simp [rb_segment, Nat.add_assoc]

/-- The status after the loop: unchanged when every segment is aligned, the
I/O error otherwise. -/
theorem loop_ret (segs : List bio_vec) (st : xfer σ) :
    (segs.foldl (rb_segment ops ss dir start) st).ret
      = if all_aligned ss segs then st.ret else - EIO := by
  induction segs generalizing st with
  | nil => simp [all_aligned_nil]
  | cons bv segs ih =>
    rw [List.foldl_cons, ih]
    by_cases h1 : bv.bv_len % ss = 0 <;> by_cases h2 : all_aligned ss segs <;>
      simp [rb_segment, all_aligned_cons, h1, h2]

/-- The loop appends one store call per segment, each with the segment's buffer,
its whole-sector count and the start sector advanced by the whole sectors of
the segments before it. -/
theorem loop_calls (segs : List bio_vec) (st : xfer σ) :
    ∃ l : List store_call,
      (segs.foldl (rb_segment ops ss dir start) st).calls = st.calls ++ l ∧
      l.length = segs.length ∧
      ∀ (k : Nat) (bv : bio_vec), segs[k]? = some bv →
        l[k]? = some
          ({ write := decide (dir = WRITE)
             sector_off := sector_t (start + (st.sector_offset + total_sectors ss (segs.take k)))
             buffer := bv.buffer
             sectors := bv.bv_len / ss } : store_call) := by
  induction segs generalizing st with
  | nil => exact ⟨[], by simp⟩
  | cons b segs ih =>
    obtain ⟨l, hl, hlen, hget⟩ := ih (rb_segment ops ss dir start st b)
    refine ⟨({ write := decide (dir = WRITE), sector_off := sector_t (start + st.sector_offset),
               buffer := b.buffer, sectors := b.bv_len / ss } : store_call) :: l, ?_, ?_, ?_⟩
    · rw [List.foldl_cons, hl]
      simp only [rb_segment, List.append_assoc, List.singleton_append]
    · simp [hlen]
    · intro k bv hk
      cases k with
      | zero =>
        simp only [List.getElem?_cons_zero, Option.some.injEq] at hk
        subst hk
        simp [total_sectors_nil]
      | succ k =>
        simp only [List.getElem?_cons_succ] at hk
        rw [List.getElem?_cons_succ, hget k bv hk]
        simp [rb_segment, total_sectors_cons, Nat.add_assoc]

end loop

/-- The value `rb_transfer` returns is the outcome the specification assigns to
the request, whatever the store does. -/
theorem rb_transfer_ret {σ : Type} (ops : ramdevice σ) (ss : Nat) (dev : σ) (req : request) :
    (rb_transfer ops ss dev req).ret = request_status ss req := by
  simp only [rb_transfer, rb_segments, loop_sector_offset, loop_ret, request_status]
  by_cases h1 : all_aligned ss req.segments <;>
    by_cases h2 : total_sectors ss req.segments = req.blk_rq_sectors <;> simp [h1, h2]

/-- The store calls of `rb_transfer`, segment by segment. -/
theorem rb_transfer_calls {σ : Type} (ops : ramdevice σ) (ss : Nat) (dev : σ) (req : request) :
    (rb_transfer ops ss dev req).calls.length = req.segments.length ∧
      ∀ (k : Nat) (bv : bio_vec), req.segments[k]? = some bv →
        (rb_transfer ops ss dev req).calls[k]? = some
          ({ write := decide (req.rq_data_dir = WRITE)
             sector_off := sector_t (req.blk_rq_pos + total_sectors ss (req.segments.take k))
             buffer := bv.buffer
             sectors := bv.bv_len / ss } : store_call) := by
  obtain ⟨l, hl, hlen, hget⟩ := loop_calls ops ss req.rq_data_dir req.blk_rq_pos req.segments
    { ret := 0, sector_offset := 0, dev := dev, segs := [], calls := [] }
  simp only [List.nil_append, Nat.zero_add] at hl hget
  have hc : (rb_transfer ops ss dev req).calls = l := by
    simp only [rb_transfer, rb_segments]
    exact hl
  rw [hc]
  exact ⟨hlen, hget⟩

/-! ## Device descriptor -/

/-- The guard of `rb_open` as written: units up to and including `RB_MINOR_CNT`
are admitted, larger ones are rejected with `-ENODEV`. -/
theorem rb_open_guard (unit : Nat) :
    rb_open unit = if unit ≤ RB_MINOR_CNT then 0 else - ENODEV := by
  unfold rb_open
  by_cases h : unit > RB_MINOR_CNT
  · simp [h, Nat.not_le.mpr h]
  · simp [h, Nat.le_of_not_gt h]

/-- C1, at the input where the code departs from the claim: unit 16 is not below
the minor count 16, and `rb_open` admits it (returns 0, not `-ENODEV`). -/
theorem rb_open_at_minor_cnt : RB_MINOR_CNT = 16 ∧ rb_open 16 = 0 := by
  decide

/-- C7: `rb_getgeo` returns 0 and leaves heads = 1, cylinders = 64,
sectors per track = 32, start = 0 in the geometry record, whatever the device
state (its size included) and whatever the record held before. -/
theorem rb_getgeo_fixed (dev : rb_device) (geo : hd_geometry) :
    rb_getgeo dev geo = (0, { heads := 1, cylinders := 64, sectors := 32, start := 0 }) := by
  rfl

/-! ## Request outcome -/

/-- C2 as amended: when segment `k` of a request has a byte length that is not a
multiple of the sector size, `rb_transfer` returns `-EIO`, and store call `k`
(of as many calls as there are segments) is made with that segment's buffer and
with `bv_len / RB_SECTOR_SIZE` sectors rounded down, a whole-sector count that
covers strictly less than the segment and is never rounded up; for a positive
sector size that count is 0 exactly when the segment is shorter than one
sector. -/
theorem rb_transfer_misaligned {σ : Type} (ops : ramdevice σ) (ss : Nat) (dev : σ)
    (req : request) (k : Nat) (bv : bio_vec) (hk : req.segments[k]? = some bv)
    (hmis : bv.bv_len % ss ≠ 0) :
    (rb_transfer ops ss dev req).ret = - EIO ∧
      (rb_transfer ops ss dev req).calls.length = req.segments.length ∧
      ∃ c : store_call, (rb_transfer ops ss dev req).calls[k]? = some c ∧
        c.buffer = bv.buffer ∧ c.sectors = bv.bv_len / ss ∧ c.sectors * ss < bv.bv_len ∧
        (0 < ss → (c.sectors = 0 ↔ bv.bv_len < ss)) := by
  refine ⟨?_, (rb_transfer_calls ops ss dev req).1, _,
    (rb_transfer_calls ops ss dev req).2 k bv hk, rfl, rfl, ?_, ?_⟩
  · have hna : ¬ all_aligned ss req.segments := fun h =>
      hmis (h bv (List.getElem?_mem hk))
    simp [rb_transfer_ret, request_status, hna]
  · have h := Nat.div_add_mod bv.bv_len ss
    have hpos : 0 < bv.bv_len % ss := Nat.pos_of_ne_zero hmis
    calc bv.bv_len / ss * ss = ss * (bv.bv_len / ss) := Nat.mul_comm _ _
      _ < ss * (bv.bv_len / ss) + bv.bv_len % ss := Nat.lt_add_of_pos_right hpos
      _ = bv.bv_len := h
  · intro hss
    show bv.bv_len / ss = 0 ↔ bv.bv_len < ss
    exact Nat.div_eq_zero_iff hss

/-- C3: when every segment length is a multiple of the sector size and the
whole sectors of the segments do not add up to the declared sector count,
`rb_transfer` returns `-EIO`. -/
theorem rb_transfer_count_mismatch {σ : Type} (ops : ramdevice σ) (ss : Nat) (dev : σ)
    (req : request) (_hal : all_aligned ss req.segments)
    (hne : total_sectors ss req.segments ≠ req.blk_rq_sectors) :
    (rb_transfer ops ss dev req).ret = - EIO := by
  simp [rb_transfer_ret, request_status, hne]

/-- C4 as amended: for a request with a segment whose sector span ends beyond
the capacity, `rb_transfer` returns a non-zero status exactly when some segment
is misaligned or the whole sectors do not add up to the declared count; the
span itself has no part in the status. -/
theorem rb_transfer_out_of_range {σ : Type} (ops : ramdevice σ) (ss capacity : Nat) (dev : σ)
    (req : request) (_hex : exceeds_capacity ss capacity req) :
    (rb_transfer ops ss dev req).ret ≠ 0 ↔
      (¬ all_aligned ss req.segments ∨ total_sectors ss req.segments ≠ req.blk_rq_sectors) := by
  rw [rb_transfer_ret, request_status]
  by_cases h1 : all_aligned ss req.segments <;>
    by_cases h2 : total_sectors ss req.segments = req.blk_rq_sectors <;> simp [h1, h2, EIO]

/-- C9 as amended: `rb_transfer` makes as many store calls as the request has
segments; call `k` is a write exactly when the direction is `WRITE`, is handed
segment `k`'s buffer and `bv_len / RB_SECTOR_SIZE` sectors rounded down, and
starts at the request's start sector plus the rounded-down sector counts of the
segments before it, aligned or not, that sum being taken in `sector_t`, modulo
`2 ^ 64`; it is the plain sum whenever the plain sum is below `2 ^ 64`. -/
theorem rb_transfer_store_calls {σ : Type} (ops : ramdevice σ) (ss : Nat) (dev : σ)
    (req : request) :
    (rb_transfer ops ss dev req).calls.length = req.segments.length ∧
      ∀ (k : Nat) (bv : bio_vec), req.segments[k]? = some bv →
        (rb_transfer ops ss dev req).calls[k]? = some
          ({ write := decide (req.rq_data_dir = WRITE)
             sector_off := (req.blk_rq_pos +
               ((req.segments.take k).map (fun b => b.bv_len / ss)).sum) % 2 ^ 64
             buffer := bv.buffer
             sectors := bv.bv_len / ss } : store_call) ∧
        (req.blk_rq_pos + ((req.segments.take k).map (fun b => b.bv_len / ss)).sum < 2 ^ 64 →
          (rb_transfer ops ss dev req).calls[k]? = some
            ({ write := decide (req.rq_data_dir = WRITE)
               sector_off := req.blk_rq_pos +
                 ((req.segments.take k).map (fun b => b.bv_len / ss)).sum
               buffer := bv.buffer
               sectors := bv.bv_len / ss } : store_call)) := by
  refine ⟨(rb_transfer_calls ops ss dev req).1, fun k bv hk => ?_⟩
  have h := (rb_transfer_calls ops ss dev req).2 k bv hk
  have hsum : total_sectors ss (req.segments.take k)
      = ((req.segments.take k).map (fun b => b.bv_len / ss)).sum := rfl
  rw [hsum] at h
  refine ⟨h, fun hlt => ?_⟩
  rw [h, sector_t_of_lt _ hlt]

/-- C10: `rb_transfer` returns 0 exactly when every segment length is a multiple
of the sector size and the rounded-down sector counts add up to the declared
count, and `-EIO` in every other case; a request without segments succeeds
exactly when it declares 0 sectors; and two requests with the same declared
count and the same segment lengths get the same status, whatever their
directions, start sectors, buffers and backing stores. -/
theorem rb_transfer_status {σ τ : Type} (ops : ramdevice σ) (ops2 : ramdevice τ) (ss : Nat)
    (dev : σ) (dev2 : τ) (req req2 : request)
    (hcnt : req2.blk_rq_sectors = req.blk_rq_sectors)
    (hlen : req2.segments.map (fun b => b.bv_len) = req.segments.map (fun b => b.bv_len)) :
    ((rb_transfer ops ss dev req).ret = 0 ↔
        (∀ bv ∈ req.segments, bv.bv_len % ss = 0) ∧
          (req.segments.map (fun b => b.bv_len / ss)).sum = req.blk_rq_sectors) ∧
      ((rb_transfer ops ss dev req).ret ≠ 0 → (rb_transfer ops ss dev req).ret = - EIO) ∧
      (req.segments = [] → ((rb_transfer ops ss dev req).ret = 0 ↔ req.blk_rq_sectors = 0)) ∧
      (rb_transfer ops2 ss dev2 req2).ret = (rb_transfer ops ss dev req).ret := by
  have hws : whole_sectors ss = fun b => b.bv_len / ss := rfl
  have key : ∀ r : request, request_status ss r =
      if (∀ n ∈ r.segments.map (fun b => b.bv_len), n % ss = 0) ∧
          ((r.segments.map (fun b => b.bv_len)).map (fun n => n / ss)).sum = r.blk_rq_sectors
      then 0 else - EIO := by
    intro r
    simp [request_status, all_aligned, total_sectors, hws, Function.comp_def]
  have hst : request_status ss req =
      if (∀ bv ∈ req.segments, bv.bv_len % ss = 0) ∧
          (req.segments.map (fun b => b.bv_len / ss)).sum = req.blk_rq_sectors
      then 0 else - EIO := by
    simp [request_status, all_aligned, total_sectors, hws]
  refine ⟨?_, ?_, ?_, ?_⟩
  · rw [rb_transfer_ret, hst]
    split_ifs with h
    · exact ⟨fun _ => h, fun _ => rfl⟩
    · exact ⟨fun h0 => absurd h0 (by simp [ EIO]), fun h0 => absurd h0 h⟩
  · rw [rb_transfer_ret, request_status]
    split_ifs <;> simp
  · intro hnil
    rw [rb_transfer_ret, hst, hnil]
    by_cases h0 : req.blk_rq_sectors = 0
    · simp [h0]
    · simp [h0, EIO, Ne.symm h0]
  · rw [rb_transfer_ret, rb_transfer_ret, key, key, hcnt, hlen]

/-! ## The request function -/

/-- One run of `rb_request` from any store, queue and completion log: the queue
ends empty and the log grows by one completion per queued request, in queue
order, each with the outcome the specification assigns to its request. -/
theorem rb_request_run {σ : Type} (ops : ramdevice σ) (ss : Nat) (q : List request) (dev : σ)
    (done : List completion) :
    (rb_request ops ss dev q done).queue = [] ∧
      (rb_request ops ss dev q done).done.map (fun c => c.req)
        = done.map (fun c => c.req) ++ q ∧
      (rb_request ops ss dev q done).done.map (fun c => c.error)
        = done.map (fun c => c.error) ++ q.map (request_status ss) := by
  induction q generalizing dev done with
  | nil =>
    rw [rb_request]
    simp [blk_fetch_request]
  | cons r q ih =>
    obtain ⟨h1, h2, h3⟩ := ih (rb_transfer ops ss dev r).dev
      (done ++ [{ req := r, error := (rb_transfer ops ss dev r).ret,
                  segs := (rb_transfer ops ss dev r).segs }])
    rw [rb_request]
    simp only [blk_fetch_request]
    refine ⟨h1, ?_, ?_⟩
    · rw [h2]
      simp
    · rw [h3]
      simp [rb_transfer_ret]

/-- C6: one run of `rb_request` on a queue empties it and reports one
completion per request, for the requests in queue order; the status of each is
the value `rb_transfer` returns for that request (from any store state), so
it is the same whatever requests, faulted or not, came before it. -/
theorem rb_request_drains {σ : Type} (ops : ramdevice σ) (ss : Nat) (dev : σ)
    (q : List request) :
    (rb_request ops ss dev q []).queue = [] ∧
      (rb_request ops ss dev q []).done.map (fun c => c.req) = q ∧
      ∀ dev0 : σ, (rb_request ops ss dev q []).done.map (fun c => c.error)
        = q.map (fun r => (rb_transfer ops ss dev0 r).ret) := by
  obtain ⟨h1, h2, h3⟩ := rb_request_run ops ss q dev []
  refine ⟨h1, by simpa using h2, ?_⟩
  intro dev0
  rw [h3]
  simp [rb_transfer_ret]

/-! ## Module initialisation -/

/-- C8: when `ramdevice_init` returns a negative value, `rb_init` returns that
value, has made no other call (nothing is registered) and leaves the globals as
they were; and whenever `rb_init` returns 0, `rb_dev.size`, the capacity set on
the disk and the capacity of the disk handed to `add_disk` are the value
`ramdevice_init` returned. -/
theorem rb_init_capacity (k : kernel) (st : module_state) (hint : k.ramdevice_init < 2 ^ 31) :
    (k.ramdevice_init < 0 →
        (rb_init k st).ret = k.ramdevice_init ∧ (rb_init k st).calls = [kcall.ramdevice_init] ∧
          (rb_init k st).st = st) ∧
      ((rb_init k st).ret = 0 →
        ((rb_init k st).st.rb_dev.size : Int) = k.ramdevice_init ∧
          ∃ disk : gendisk, (rb_init k st).st.rb_dev.rb_disk = some disk ∧
            (disk.capacity : Int) = k.ramdevice_init ∧
            kcall.set_capacity disk.capacity ∈ (rb_init k st).calls ∧
            kcall.add_disk disk ∈ (rb_init k st).calls) := by
  constructor
  · intro hneg
    simp [rb_init, hneg]
  · intro hret
    by_cases hneg : k.ramdevice_init < 0
    · simp only [rb_init, hneg, if_true] at hret
      omega
    · have hsize : ((to_u32 k.ramdevice_init : Nat) : Int) = k.ramdevice_init := by
        unfold to_u32
        have h0 : 0 ≤ k.ramdevice_init := Int.not_lt.mp hneg
        have hmod : k.ramdevice_init % 2 ^ 32 = k.ramdevice_init :=
          Int.emod_eq_of_lt h0 (by omega)
        rw [hmod, Int.toNat_of_nonneg h0]
      by_cases h1 : to_u32 k.register_blkdev ≤ 0
      · simp [rb_init, hneg, h1, EBUSY] at hret
      · by_cases h2 : k.blk_init_queue = false
        · simp [rb_init, hneg, h1, h2, ENOMEM] at hret
        · by_cases h3 : k.alloc_disk = false
          · simp [rb_init, hneg, h1, h2, h3, ENOMEM] at hret
          · simp [rb_init, hneg, h1, h2, h3, hsize]

/-! ## Round trip through the backing store of the specification -/

section store

variable (ss start : Nat)

theorem segment_bytes_nil : segment_bytes [] = [] := by
  simp [segment_bytes]

theorem segment_bytes_cons (bv : bio_vec) (segs : List bio_vec) :
    segment_bytes (bv :: segs) = bv.buffer ++ segment_bytes segs := by
  simp [segment_bytes]

theorem segment_bytes_append (l1 l2 : List bio_vec) :
    segment_bytes (l1 ++ l2) = segment_bytes l1 ++ segment_bytes l2 := by
  simp [segment_bytes]

/-- An aligned length is its whole-sector count times the sector size. -/
theorem aligned_len (n : Nat) (h : n % ss = 0) : n / ss * ss = n :=
  Nat.div_mul_cancel (Nat.dvd_of_mod_eq_zero h)

/-- Aligned segments with full buffers hold as many bytes as their whole
sectors take. -/
theorem segment_bytes_length (segs : List bio_vec) (hal : all_aligned ss segs)
    (hlen : ∀ bv ∈ segs, bv.buffer.length = bv.bv_len) :
    (segment_bytes segs).length = total_sectors ss segs * ss := by
  induction segs with
  | nil => simp [segment_bytes_nil, total_sectors_nil]
  | cons bv segs ih =>
    rw [all_aligned_cons] at hal
    rw [segment_bytes_cons, List.length_append, total_sectors_cons, Nat.add_mul,
      ih hal.2 (fun b hb => hlen b (List.mem_cons_of_mem _ hb)),
      hlen bv (List.mem_cons_self _ _), aligned_len ss _ hal.1]

/-- One write segment within the capacity. -/
theorem write_step (st : xfer ram_store) (bv : bio_vec)
    (hin : start + st.sector_offset + bv.bv_len / ss ≤ st.dev.capacity_sectors) :
    (rb_segment (spec_ramdevice ss) ss WRITE start st bv).dev.capacity_sectors
        = st.dev.capacity_sectors ∧
      ∀ i, (rb_segment (spec_ramdevice ss) ss WRITE start st bv).dev.mem i =
        if (start + st.sector_offset) * ss ≤ i ∧
            i < (start + st.sector_offset) * ss + bv.bv_len / ss * ss then
          bv.buffer.getD (i - (start + st.sector_offset) * ss) 0
        else
          st.dev.mem i := by
  have hsec : sector_t (start + st.sector_offset) = start + st.sector_offset :=
    sector_t_of_lt _ (Nat.lt_of_le_of_lt (Nat.le_trans (Nat.le_add_right _ _) hin)
      st.dev.capacity_range)
  simp [rb_segment, spec_ramdevice, backing_write, hin, hsec]

/-- The write loop within the capacity: the store keeps its capacity and holds
the segments' bytes, in order, from the first sector written on; every other
byte is as before. -/
theorem write_loop (segs : List bio_vec) (st : xfer ram_store)
    (hal : all_aligned ss segs) (hlen : ∀ bv ∈ segs, bv.buffer.length = bv.bv_len)
    (hin : start + st.sector_offset + total_sectors ss segs ≤ st.dev.capacity_sectors) :
    (segs.foldl (rb_segment (spec_ramdevice ss) ss WRITE start) st).dev.capacity_sectors
        = st.dev.capacity_sectors ∧
      ∀ i, (segs.foldl (rb_segment (spec_ramdevice ss) ss WRITE start) st).dev.mem i =
        if (start + st.sector_offset) * ss ≤ i ∧
            i < (start + st.sector_offset) * ss + total_sectors ss segs * ss then
          (segment_bytes segs).getD (i - (start + st.sector_offset) * ss) 0
        else
          st.dev.mem i := by
  induction segs generalizing st with
  | nil =>
    refine ⟨rfl, fun i => ?_⟩
    rw [if_neg (by rw [total_sectors_nil]; omega)]
    rfl
  | cons bv segs ih =>
    rw [all_aligned_cons] at hal
    rw [total_sectors_cons] at hin
    have hs := write_step ss start st bv (by omega)
    have hoff : (rb_segment (spec_ramdevice ss) ss WRITE start st bv).sector_offset
        = st.sector_offset + bv.bv_len / ss := rfl
    obtain ⟨ic, im⟩ := ih (rb_segment (spec_ramdevice ss) ss WRITE start st bv) hal.2
      (fun b hb => hlen b (List.mem_cons_of_mem _ hb)) (by rw [hoff, hs.1]; omega)
    refine ⟨by rw [List.foldl_cons, ic, hs.1], fun i => ?_⟩
    have hL : bv.bv_len / ss * ss = bv.buffer.length := by
      rw [aligned_len ss _ hal.1, hlen bv (List.mem_cons_self _ _)]
    have hA : (start + (st.sector_offset + bv.bv_len / ss)) * ss
        = (start + st.sector_offset) * ss + bv.buffer.length := by
      rw [← Nat.add_assoc, Nat.add_mul, hL]
    rw [List.foldl_cons, im i, hs.2 i, hoff, hA, segment_bytes_cons, total_sectors_cons,
      Nat.add_mul (bv.bv_len / ss) (total_sectors ss segs) ss, hL]
    generalize (start + st.sector_offset) * ss = A
    generalize total_sectors ss segs * ss = E
    by_cases h1 : A ≤ i
    · by_cases h2 : i < A + bv.buffer.length
      · have h3 : ¬ (A + bv.buffer.length ≤ i ∧ i < A + bv.buffer.length + E) := by omega
        have h4 : A ≤ i ∧ i < A + (bv.buffer.length + E) := by omega
        rw [if_neg h3, if_pos ⟨h1, h2⟩, if_pos h4, List.getD_append _ _ _ _ (by omega)]
      · by_cases h5 : i < A + bv.buffer.length + E
        · have h3 : A + bv.buffer.length ≤ i ∧ i < A + bv.buffer.length + E := by omega
          have h4 : A ≤ i ∧ i < A + (bv.buffer.length + E) := by omega
          rw [if_pos h3, if_pos h4, List.getD_append_right _ _ _ _ (by omega)]
          congr 1
          omega
        · have h3 : ¬ (A + bv.buffer.length ≤ i ∧ i < A + bv.buffer.length + E) := by omega
          have h4 : ¬ (A ≤ i ∧ i < A + (bv.buffer.length + E)) := by omega
          have h6 : ¬ (A ≤ i ∧ i < A + bv.buffer.length) := by omega
          rw [if_neg h3, if_neg h4, if_neg h6]
    · have h3 : ¬ (A + bv.buffer.length ≤ i ∧ i < A + bv.buffer.length + E) := by omega
      have h4 : ¬ (A ≤ i ∧ i < A + (bv.buffer.length + E)) := by omega
      have h6 : ¬ (A ≤ i ∧ i < A + bv.buffer.length) := by omega
      rw [if_neg h3, if_neg h4, if_neg h6]

/-- One read segment within the capacity, aligned and with a full buffer: the
store is unchanged and the buffer holds the store's bytes of the sectors
read. -/
theorem read_step (dir : Nat) (hdir : dir ≠ WRITE) (st : xfer ram_store) (bv : bio_vec)
    (hal : bv.bv_len % ss = 0) (hlen : bv.buffer.length = bv.bv_len)
    (hin : start + st.sector_offset + bv.bv_len / ss ≤ st.dev.capacity_sectors) :
    (rb_segment (spec_ramdevice ss) ss dir start st bv).dev = st.dev ∧
      (rb_segment (spec_ramdevice ss) ss dir start st bv).segs = st.segs ++
        [{ buffer := (List.range (bv.bv_len / ss * ss)).map
             (fun i => st.dev.mem ((start + st.sector_offset) * ss + i)),
           bv_len := bv.bv_len }] := by
  have hd : bv.buffer.drop (bv.bv_len / ss * ss) = [] := by
    rw [aligned_len ss _ hal]
    exact List.drop_of_length_le (by omega)
  have hsec : sector_t (start + st.sector_offset) = start + st.sector_offset :=
    sector_t_of_lt _ (Nat.lt_of_le_of_lt (Nat.le_trans (Nat.le_add_right _ _) hin)
      st.dev.capacity_range)
  simp [rb_segment, spec_ramdevice, backing_read, hin, hdir, hd, hsec]

/-- The read loop within the capacity: the store is unchanged and the buffers
of the segments visited hold, in order, the store's bytes from the first sector
read on. -/
theorem read_loop (dir : Nat) (hdir : dir ≠ WRITE) (segs : List bio_vec) (st : xfer ram_store)
    (hal : all_aligned ss segs) (hlen : ∀ bv ∈ segs, bv.buffer.length = bv.bv_len)
    (hin : start + st.sector_offset + total_sectors ss segs ≤ st.dev.capacity_sectors) :
    (segs.foldl (rb_segment (spec_ramdevice ss) ss dir start) st).dev = st.dev ∧
      segment_bytes (segs.foldl (rb_segment (spec_ramdevice ss) ss dir start) st).segs
        = segment_bytes st.segs ++ (List.range (total_sectors ss segs * ss)).map
            (fun i => st.dev.mem ((start + st.sector_offset) * ss + i)) := by
  induction segs generalizing st with
  | nil => simp [total_sectors_nil]
  | cons bv segs ih =>
    rw [all_aligned_cons] at hal
    rw [total_sectors_cons] at hin
    have hs := read_step ss start dir hdir st bv hal.1 (hlen bv (List.mem_cons_self _ _))
      (by omega)
    have hoff : (rb_segment (spec_ramdevice ss) ss dir start st bv).sector_offset
        = st.sector_offset + bv.bv_len / ss := rfl
    obtain ⟨ic, im⟩ := ih (rb_segment (spec_ramdevice ss) ss dir start st bv) hal.2
      (fun b hb => hlen b (List.mem_cons_of_mem _ hb)) (by rw [hoff, hs.1]; omega)
    refine ⟨by rw [List.foldl_cons, ic, hs.1], ?_⟩
    rw [List.foldl_cons, im, hs.1, hs.2, hoff, segment_bytes_append, segment_bytes_cons,
      segment_bytes_nil, List.append_nil, total_sectors_cons,
      Nat.add_mul (bv.bv_len / ss) (total_sectors ss segs) ss, List.range_add,
      List.map_append, List.map_map, List.append_assoc]
    congr 2
    apply List.map_congr_left
    intro i _
    simp only [Function.comp_apply]
    congr 1
    rw [← Nat.add_assoc, Nat.add_mul, Nat.add_assoc]

/-- The segments keep their lengths through the loop. -/
theorem loop_segs_len {σ : Type} (ops : ramdevice σ) (dir : Nat) (segs : List bio_vec)
    (st : xfer σ) :
    (segs.foldl (rb_segment ops ss dir start) st).segs.map (fun b => b.bv_len)
      = st.segs.map (fun b => b.bv_len) ++ segs.map (fun b => b.bv_len) := by
  induction segs generalizing st with
  | nil => simp
  | cons bv segs ih =>
    rw [List.foldl_cons, ih]
    simp [rb_segment]

end store

/-- C5: on the backing store of the specification, for a start sector `s` and a
count `n` with `s + n ≤ capacity_sectors`, a write request of `n` sectors at `s`
in any sector-aligned segments followed by a read request of the same range in
any sector-aligned segments: both requests succeed, the read segments keep
their lengths, and their buffers hold, in order, exactly the bytes of the write
segments. -/
theorem write_then_read (ss : Nat) (dev : ram_store) (s n : Nat) (wsegs rsegs : List bio_vec)
    (hcap : s + n ≤ dev.capacity_sectors)
    (hwa : all_aligned ss wsegs) (hwl : ∀ bv ∈ wsegs, bv.buffer.length = bv.bv_len)
    (hwn : total_sectors ss wsegs = n)
    (hra : all_aligned ss rsegs) (hrl : ∀ bv ∈ rsegs, bv.buffer.length = bv.bv_len)
    (hrn : total_sectors ss rsegs = n) :
    let w := rb_transfer (spec_ramdevice ss) ss dev
      { rq_data_dir := WRITE, blk_rq_pos := s, blk_rq_sectors := n, segments := wsegs }
    let r := rb_transfer (spec_ramdevice ss) ss w.dev
      { rq_data_dir := READ, blk_rq_pos := s, blk_rq_sectors := n, segments := rsegs }
    w.ret = 0 ∧ r.ret = 0 ∧
      r.segs.map (fun b => b.bv_len) = rsegs.map (fun b => b.bv_len) ∧
      segment_bytes r.segs = segment_bytes wsegs := by
  intro w r
  have hw := write_loop ss s wsegs
    { ret := 0, sector_offset := 0, dev := dev, segs := [], calls := [] } hwa hwl
    (by simp only [Nat.add_zero]; omega)
  have hwdev : w.dev = (wsegs.foldl (rb_segment (spec_ramdevice ss) ss WRITE s)
      { ret := 0, sector_offset := 0, dev := dev, segs := [], calls := [] }).dev := rfl
  rw [← hwdev] at hw
  simp only [Nat.add_zero] at hw
  have hr := read_loop ss s READ (by decide) rsegs
    { ret := 0, sector_offset := 0, dev := w.dev, segs := [], calls := [] } hra hrl
    (by simp only [Nat.add_zero]; rw [hw.1]; omega)
  have hrsegs : r.segs = (rsegs.foldl (rb_segment (spec_ramdevice ss) ss READ s)
      { ret := 0, sector_offset := 0, dev := w.dev, segs := [], calls := [] }).segs := rfl
  rw [← hrsegs] at hr
  simp only [Nat.add_zero, segment_bytes_nil, List.nil_append] at hr
  refine ⟨?_, ?_, ?_, ?_⟩
  · show (rb_transfer _ _ _ _).ret = 0
    simp [rb_transfer_ret, request_status, hwa, hwn]
  · show (rb_transfer _ _ _ _).ret = 0
    simp [rb_transfer_ret, request_status, hra, hrn]
  · rw [hrsegs, loop_segs_len]
    simp
  · rw [hr.2]
    have hlenw := segment_bytes_length ss wsegs hwa hwl
    apply List.ext_getElem
    · rw [List.length_map, List.length_range, hlenw, hrn, hwn]
    · intro i h1 h2
      rw [List.getElem_map, List.getElem_range, hw.2]
      have hi : i < n * ss := by
        rw [hlenw, hwn] at h2
        exact h2
      rw [hwn, if_pos ⟨Nat.le_add_right _ _, Nat.add_lt_add_left hi _⟩, Nat.add_sub_cancel_left,
        List.getD_eq_getElem _ _ h2]

/-! ## Instances at concrete inputs -/

/-- C2 fails as stated: with sector size 512, a write request at sector 10 whose
single segment has 511 bytes is misaligned, and the store call for that segment
is made with 0 sectors, so the transfer issued for it is a zero-sector one. -/
theorem short_segment_zero_sectors :
    (511 % 512 ≠ 0) ∧
      (rb_transfer (spec_ramdevice 512) 512 { capacity_sectors := 1024, mem := fun _ => 0 }
        { rq_data_dir := WRITE, blk_rq_pos := 10, blk_rq_sectors := 1,
          segments := [{ buffer := List.replicate 511 1, bv_len := 511 }] }).calls
        = [{ write := true, sector_off := 10, buffer := List.replicate 511 1, sectors := 0 }] := by
  constructor
  · decide
  · rfl

/-- C2 as amended, at a write request of two segments, the second of 700 bytes
with sector size 512: the status is `-EIO` and the second store call covers 1
sector, less than the segment and not 0 since 700 is not below 512. -/
theorem rb_transfer_misaligned_witness :
    (rb_transfer (spec_ramdevice 512) 512 { capacity_sectors := 1024, mem := fun _ => 0 }
        { rq_data_dir := WRITE, blk_rq_pos := 10, blk_rq_sectors := 2,
          segments := [{ buffer := List.replicate 512 1, bv_len := 512 },
                       { buffer := List.replicate 700 2, bv_len := 700 }] }).ret = - EIO ∧
      (rb_transfer (spec_ramdevice 512) 512 { capacity_sectors := 1024, mem := fun _ => 0 }
        { rq_data_dir := WRITE, blk_rq_pos := 10, blk_rq_sectors := 2,
          segments := [{ buffer := List.replicate 512 1, bv_len := 512 },
                       { buffer := List.replicate 700 2, bv_len := 700 }] }).calls.length = 2 ∧
      ∃ c : store_call,
        (rb_transfer (spec_ramdevice 512) 512 { capacity_sectors := 1024, mem := fun _ => 0 }
        { rq_data_dir := WRITE, blk_rq_pos := 10, blk_rq_sectors := 2,
          segments := [{ buffer := List.replicate 512 1, bv_len := 512 },
                       { buffer := List.replicate 700 2, bv_len := 700 }] }).calls[1]? = some c ∧
        c.buffer = List.replicate 700 2 ∧ c.sectors = 700 / 512 ∧ c.sectors * 512 < 700 ∧
        (0 < 512 → (c.sectors = 0 ↔ 700 < 512)) :=
  rb_transfer_misaligned (spec_ramdevice 512) 512 { capacity_sectors := 1024, mem := fun _ => 0 }
        { rq_data_dir := WRITE, blk_rq_pos := 10, blk_rq_sectors := 2,
          segments := [{ buffer := List.replicate 512 1, bv_len := 512 },
                       { buffer := List.replicate 700 2, bv_len := 700 }] }
    1 { buffer := List.replicate 700 2, bv_len := 700 } rfl (by decide)

/-- C3 at the scenario of the specification: a read declared as 5 sectors whose
single segment covers 4 sectors of 512 bytes fails with `-EIO`. -/
theorem rb_transfer_count_mismatch_witness :
    all_aligned 512 [{ buffer := List.replicate 2048 0, bv_len := 2048 }] ∧
      total_sectors 512 [{ buffer := List.replicate 2048 0, bv_len := 2048 }] = 4 ∧
      (rb_transfer (spec_ramdevice 512) 512 { capacity_sectors := 1024, mem := fun _ => 0 }
        { rq_data_dir := READ, blk_rq_pos := 0, blk_rq_sectors := 5,
          segments := [{ buffer := List.replicate 2048 0, bv_len := 2048 }] }).ret = - EIO :=
  ⟨by decide, by decide,
    rb_transfer_count_mismatch (spec_ramdevice 512) 512
      { capacity_sectors := 1024, mem := fun _ => 0 }
      { rq_data_dir := READ, blk_rq_pos := 0, blk_rq_sectors := 5,
        segments := [{ buffer := List.replicate 2048 0, bv_len := 2048 }] }
      (by decide) (by decide)⟩

/-- C4 fails as stated: with sector size 512 and a store of 1024 sectors, a write
request of 1 sector at sector 2000 in one 512-byte segment has a span beyond the
capacity, the store of the specification rejects the access with `OutOfRange`,
and `rb_transfer` returns 0. -/
theorem out_of_range_write_succeeds :
    exceeds_capacity 512 1024
        { rq_data_dir := WRITE, blk_rq_pos := 2000, blk_rq_sectors := 1,
          segments := [{ buffer := List.replicate 512 7, bv_len := 512 }] } ∧
      (∃ e, backing_write 512 { capacity_sectors := 1024, mem := fun _ => 0 } 2000 1
        (List.replicate 512 7) = Except.error e) ∧
      (rb_transfer (spec_ramdevice 512) 512 { capacity_sectors := 1024, mem := fun _ => 0 }
        { rq_data_dir := WRITE, blk_rq_pos := 2000, blk_rq_sectors := 1,
          segments := [{ buffer := List.replicate 512 7, bv_len := 512 }] }).ret = 0 := by
  refine ⟨⟨0, { buffer := List.replicate 512 7, bv_len := 512 }, rfl, by decide⟩,
    ⟨store_error.OutOfRange, rfl⟩, ?_⟩
  rw [rb_transfer_ret]
  decide

/-- C4 as amended, at a write of 1 sector at sector 2000 of a store of 1024
sectors whose single segment has 700 bytes: the request is reported failed, and
it is because of the misaligned segment. -/
theorem rb_transfer_out_of_range_witness :
    exceeds_capacity 512 1024
        { rq_data_dir := WRITE, blk_rq_pos := 2000, blk_rq_sectors := 1,
          segments := [{ buffer := List.replicate 700 7, bv_len := 700 }] } ∧
      ((rb_transfer (spec_ramdevice 512) 512 { capacity_sectors := 1024, mem := fun _ => 0 }
          { rq_data_dir := WRITE, blk_rq_pos := 2000, blk_rq_sectors := 1,
            segments := [{ buffer := List.replicate 700 7, bv_len := 700 }] }).ret ≠ 0 ↔
        (¬ all_aligned 512 [{ buffer := List.replicate 700 7, bv_len := 700 }] ∨
          total_sectors 512 [{ buffer := List.replicate 700 7, bv_len := 700 }] ≠ 1)) :=
  ⟨⟨0, { buffer := List.replicate 700 7, bv_len := 700 }, rfl, by decide⟩,
    rb_transfer_out_of_range (spec_ramdevice 512) 512 1024
      { capacity_sectors := 1024, mem := fun _ => 0 }
      { rq_data_dir := WRITE, blk_rq_pos := 2000, blk_rq_sectors := 1,
        segments := [{ buffer := List.replicate 700 7, bv_len := 700 }] }
      ⟨0, { buffer := List.replicate 700 7, bv_len := 700 }, rfl, by decide⟩⟩

/-- C5 at the scenario of the specification: capacity 1024 sectors of 512 bytes,
2 sectors written at sector 10 as two segments of 1 sector, then sectors 10-11
read in one segment: the read buffer holds the bytes written. -/
theorem write_then_read_witness :
    10 + 2 ≤ 1024 ∧
      segment_bytes
        (rb_transfer (spec_ramdevice 512) 512
          (rb_transfer (spec_ramdevice 512) 512 { capacity_sectors := 1024, mem := fun _ => 0 }
            { rq_data_dir := WRITE, blk_rq_pos := 10, blk_rq_sectors := 2,
              segments := [{ buffer := List.replicate 512 170, bv_len := 512 },
                           { buffer := List.replicate 512 85, bv_len := 512 }] }).dev
          { rq_data_dir := READ, blk_rq_pos := 10, blk_rq_sectors := 2,
            segments := [{ buffer := List.replicate 1024 0, bv_len := 1024 }] }).segs
        = segment_bytes [{ buffer := List.replicate 512 170, bv_len := 512 },
                         { buffer := List.replicate 512 85, bv_len := 512 }] :=
  ⟨by decide,
    by
      have h := (write_then_read 512 { capacity_sectors := 1024, mem := fun _ => 0 } 10 2
        [{ buffer := List.replicate 512 170, bv_len := 512 },
         { buffer := List.replicate 512 85, bv_len := 512 }]
        [{ buffer := List.replicate 1024 0, bv_len := 1024 }]
        (by decide) (by decide)
        (by
          intro bv h
          rw [List.mem_cons, List.mem_singleton] at h
          rcases h with rfl | rfl <;> exact List.length_replicate _ _)
        (by decide) (by decide)
        (by
          intro bv h
          rw [List.mem_singleton] at h
          rw [h]
          exact List.length_replicate _ _)
        (by decide)).2.2.2
      exact h⟩

/-- C8 at two answers of the callees: `ramdevice_init` failing with -12, and
`ramdevice_init` granting 1024 sectors with every later call succeeding. -/
theorem rb_init_capacity_witness :
    ((rb_init
          { ramdevice_init := -12, register_blkdev := 250, blk_init_queue := true, alloc_disk := true }
          module_state.load).ret = -12 ∧
      (rb_init
          { ramdevice_init := -12, register_blkdev := 250, blk_init_queue := true, alloc_disk := true }
          module_state.load).calls = [kcall.ramdevice_init] ∧
      (rb_init
          { ramdevice_init := -12, register_blkdev := 250, blk_init_queue := true, alloc_disk := true }
          module_state.load).st = module_state.load) ∧
      (rb_init
          { ramdevice_init := 1024, register_blkdev := 250, blk_init_queue := true, alloc_disk := true }
          module_state.load).ret = 0 ∧
      ((rb_init
          { ramdevice_init := 1024, register_blkdev := 250, blk_init_queue := true, alloc_disk := true }
          module_state.load).st.rb_dev.size : Int) = 1024 :=
  ⟨(rb_init_capacity
      { ramdevice_init := -12, register_blkdev := 250, blk_init_queue := true, alloc_disk := true }
      module_state.load (by decide)).1 (by decide),
    by decide,
    ((rb_init_capacity
      { ramdevice_init := 1024, register_blkdev := 250, blk_init_queue := true, alloc_disk := true }
      module_state.load (by decide)).2 (by decide)).1⟩

/-- C9 fails as stated: with sector size 512, for a write request of two
512-byte segments at start sector `2 ^ 64 - 1`, the largest `sector_t` value, the
second store call starts at sector 0, not at the start sector plus the 1 sector
of the first segment. -/
theorem second_call_wraps_to_zero :
    (rb_transfer (spec_ramdevice 512) 512 { capacity_sectors := 1024, mem := fun _ => 0 }
        { rq_data_dir := WRITE, blk_rq_pos := 2 ^ 64 - 1, blk_rq_sectors := 2,
          segments := [{ buffer := List.replicate 512 1, bv_len := 512 },
                       { buffer := List.replicate 512 2, bv_len := 512 }] }).calls[1]? =
        some { write := true, sector_off := 0, buffer := List.replicate 512 2, sectors := 1 } ∧
      (2 ^ 64 - 1 + 512 / 512 : Nat) ≠ 0 := by
  constructor
  · rfl
  · decide

/-- C9 as amended, at a write request at sector 10 whose first segment has 700
bytes and whose second has 512, sector size 512: the second store call is a
write of 1 sector at sector 11 with the second segment's buffer. -/
theorem rb_transfer_store_calls_witness :
    (10 + 700 / 512 < 2 ^ 64) ∧
      (rb_transfer (spec_ramdevice 512) 512 { capacity_sectors := 1024, mem := fun _ => 0 }
        { rq_data_dir := WRITE, blk_rq_pos := 10, blk_rq_sectors := 2,
          segments := [{ buffer := List.replicate 700 1, bv_len := 700 },
                       { buffer := List.replicate 512 2, bv_len := 512 }] }).calls[1]? =
      some { write := true, sector_off := 11, buffer := List.replicate 512 2, sectors := 1 } :=
  ⟨by decide,
    ((rb_transfer_store_calls (spec_ramdevice 512) 512
        { capacity_sectors := 1024, mem := fun _ => 0 }
        { rq_data_dir := WRITE, blk_rq_pos := 10, blk_rq_sectors := 2,
          segments := [{ buffer := List.replicate 700 1, bv_len := 700 },
                       { buffer := List.replicate 512 2, bv_len := 512 }] }).2
      1 { buffer := List.replicate 512 2, bv_len := 512 } rfl).2 (by decide)⟩

/-- C10 at a read of sectors 0-1 from a store of 1024 sectors and a write at
sector 900 to a store of 8 sectors, both declared as 2 sectors with segments of
512 and 512 bytes: the two statuses are equal (and 0). -/
theorem rb_transfer_status_witness :
    (rb_transfer (spec_ramdevice 512) 512 { capacity_sectors := 8, mem := fun _ => 1 }
        { rq_data_dir := WRITE, blk_rq_pos := 900, blk_rq_sectors := 2,
          segments := [{ buffer := List.replicate 512 3, bv_len := 512 },
                       { buffer := List.replicate 512 4, bv_len := 512 }] }).ret =
      (rb_transfer (spec_ramdevice 512) 512 { capacity_sectors := 1024, mem := fun _ => 0 }
        { rq_data_dir := READ, blk_rq_pos := 0, blk_rq_sectors := 2,
          segments := [{ buffer := List.replicate 512 0, bv_len := 512 },
                       { buffer := List.replicate 512 0, bv_len := 512 }] }).ret :=
  (rb_transfer_status (spec_ramdevice 512) (spec_ramdevice 512) 512
    { capacity_sectors := 1024, mem := fun _ => 0 } { capacity_sectors := 8, mem := fun _ => 1 }
    { rq_data_dir := READ, blk_rq_pos := 0, blk_rq_sectors := 2,
      segments := [{ buffer := List.replicate 512 0, bv_len := 512 },
                   { buffer := List.replicate 512 0, bv_len := 512 }] }
    { rq_data_dir := WRITE, blk_rq_pos := 900, blk_rq_sectors := 2,
      segments := [{ buffer := List.replicate 512 3, bv_len := 512 },
                   { buffer := List.replicate 512 4, bv_len := 512 }] }
    rfl rfl).2.2.2

end RamBlock
